import Mathlib

/-!
Verification of the `point-cloud-box-detection` repository, whose sole
source file is the packaging manifest `setup.py`.  The manifest is embedded
shallowly: the keyword arguments of the single `setup(...)` call become a
Lean structure, the module body becomes a small statement AST, and module
evaluation becomes a pure function producing an effect trace.
-/

namespace PlyProcessor

/-- The `packages=` argument of a `setup` call: either a call to
`find_packages` with the given positional/keyword argument strings, or a
hard-coded literal list of package names. -/
inductive PackagesArg where
  | findPackagesCall (args : List String)
  | literalList (names : List String)
  deriving DecidableEq, Repr

/-- The keyword arguments of a setuptools `setup(...)` call, restricted to
the fields the manifest uses plus the distribution fields the manifest could
have used but does not (`entry_points`, `scripts`, `package_data`,
`data_files`), modelled as `Option` and `none` when the argument is not
passed.  `entry_points` maps group names (such as `console_scripts`) to
entry specifications. -/
structure SetupArgs where
  name : String
  version : String
  packages : PackagesArg
  install_requires : List String
  author : String
  author_email : String
  description : String
  classifiers : List String
  python_requires : String
  entry_points : Option (List (String × List String)) := none
  scripts : Option (List String) := none
  package_data : Option (List (String × List String)) := none
  data_files : Option (List (String × List String)) := none
  deriving DecidableEq, Repr

/-- The arguments of the single `setup(...)` call in
`src/point-cloud-box-detection/setup.py`, transcribed field by field. -/
def plySetupArgs : SetupArgs where
  name := "ply_processor"
  version := "0.1.0"
  packages := .findPackagesCall []
  install_requires :=
    [ "open3d==0.18.0"
    , "numpy==1.26.4"
    , "matplotlib==3.9.2"
    , "matplotlib-inline==0.1.7" ]
  author := "Chen Xu"
  author_email := "cxu.self@gmail.com"
  description := "A module for processing point clouds with plane fitting and bounding boxes"
  classifiers :=
    [ "Programming Language :: Python :: 3"
    , "Operating System :: OS Independent" ]
  python_requires := ">=3.6"

/-- A Python top-level statement, with constructors for everything the
manifest could contain: imports, a call to `setup`, function and class
definitions, assignments, and control flow. -/
inductive Stmt where
  | importFrom (module : String) (names : List String)
  | setupCall (args : SetupArgs)
  | funcDef (name : String)
  | classDef (name : String)
  | assign (target : String)
  | ifStmt
  | whileStmt
  | forStmt
  deriving DecidableEq, Repr

/-- A source file of the repository: its path and its top-level statements. -/
structure SourceFile where
  path : String
  body : List Stmt
  deriving DecidableEq, Repr

/-- The body of `setup.py`: one import and one `setup(...)` call. -/
def setupPyBody : List Stmt :=
  [ .importFrom "setuptools" ["setup", "find_packages"]
  , .setupCall plySetupArgs ]

/-- The file `setup.py`. -/
def setupPyFile : SourceFile :=
  { path := "point-cloud-box-detection/setup.py", body := setupPyBody }

/-- Every source file of the repository. -/
def repoFiles : List SourceFile := [setupPyFile]

/-- Whether a statement defines a function or a class or is a control-flow
statement, i.e. contributes algorithmic logic beyond literal data. -/
def Stmt.isAlgorithmic : Stmt → Bool
  | .funcDef _ => true
  | .classDef _ => true
  | .ifStmt => true
  | .whileStmt => true
  | .forStmt => true
  | _ => false

/-- The observable effects a statement of the manifest can produce when the
module is evaluated. -/
inductive Effect where
  | callSetup (args : SetupArgs)
  | readEnvVar (name : String)
  | writeFile (path : String) (contents : String)
  deriving DecidableEq, Repr

/-- Whether an effect is a `setup` call. -/
def Effect.isSetupCall : Effect → Bool
  | .callSetup _ => true
  | _ => false

/-- Whether an effect reads an environment variable. -/
def Effect.isReadEnvVar : Effect → Bool
  | .readEnvVar _ => true
  | _ => false

/-- Whether an effect writes a file. -/
def Effect.isWriteFile : Effect → Bool
  | .writeFile _ _ => true
  | _ => false

/-- The process environment an evaluation runs in: environment variables
as a partial map from names to values. -/
def Env : Type := String → Option String

/-- The effect trace of one top-level statement.  An import and a
definition produce no observable effect; a `setup` call produces exactly
one. -/
def evalStmt (_env : Env) : Stmt → List Effect
  | .setupCall args => [.callSetup args]
  | _ => []

/-- Evaluating the whole module: the concatenated effect traces of its
statements, in order. -/
def evalModule (env : Env) : List Effect :=
  (setupPyBody.map (evalStmt env)).flatten

/-- Number of (possibly overlapping) occurrences of `pat` as a contiguous
sublist of the second argument. -/
def countOcc (pat : List Char) : List Char → Nat
  | [] => 0
  | c :: t => (if pat.isPrefixOf (c :: t) then 1 else 0) + countOcc pat t

/-- Number of occurrences of the pattern string inside `s`. -/
def countSubstrOcc (pat s : String) : Nat :=
  countOcc pat.data s.data

/-- The package name of a requirement string: the characters before the
first version-operator character. -/
def requirementName (s : String) : String :=
  String.mk (s.data.takeWhile (fun c => c ≠ '=' ∧ c ≠ '<' ∧ c ≠ '>' ∧ c ≠ '~' ∧ c ≠ '!'))

/-- Splits a character list at commas, accumulating the current piece in
reverse. -/
def splitCommaAux (cur : List Char) : List Char → List String
  | [] => [String.mk cur.reverse]
  | c :: t =>
      if c = ',' then String.mk cur.reverse :: splitCommaAux [] t
      else splitCommaAux (c :: cur) t

/-- The comma-separated version specifiers of a requirement string such as
`python_requires`. -/
def specifiersOf (s : String) : List String :=
  splitCommaAux [] s.data

/-- Whether a requirement string is an exact-equality pin: it contains the
operator `==` exactly once and none of the range operators `>=`, `<=`,
`>`, `<`, `~=`, `!=`. -/
def isExactPin (s : String) : Bool :=
  countSubstrOcc "==" s = 1
    ∧ countSubstrOcc ">" s = 0
    ∧ countSubstrOcc "<" s = 0
    ∧ countSubstrOcc "~=" s = 0
    ∧ countSubstrOcc "!=" s = 0

end PlyProcessor

open PlyProcessor

/-- Claim C1: the manifest's `install_requires` is exactly the four
exact-pin entries `open3d==0.18.0`, `numpy==1.26.4`, `matplotlib==3.9.2`,
`matplotlib-inline==0.1.7`, in that order, and no other dependency is
declared. -/
theorem c1_install_requires_exact :
    plySetupArgs.install_requires =
      [ "open3d==0.18.0", "numpy==1.26.4", "matplotlib==3.9.2"
      , "matplotlib-inline==0.1.7" ] := by
  rfl

/-- Claim C2: the manifest declares the package name to be exactly
`ply_processor` and the version to be exactly `0.1.0`. -/
theorem c2_name_and_version :
    plySetupArgs.name = "ply_processor" ∧ plySetupArgs.version = "0.1.0" := by
  exact ⟨rfl, rfl⟩

/-- Claim C3: `python_requires` is exactly the single lower-bound
specifier `>=3.6`; there is no other specifier and in particular no upper
bound (no `<` occurs in the constraint). -/
theorem c3_python_requires_lower_bound_only :
    plySetupArgs.python_requires = ">=3.6"
      ∧ specifiersOf plySetupArgs.python_requires = [">=3.6"]
      ∧ countSubstrOcc "<" plySetupArgs.python_requires = 0 := by
  refine ⟨rfl, ?_, ?_⟩ <;> decide

/-- Claim C4: the classifiers list consists of exactly the two generic
tags `Programming Language :: Python :: 3` and
`Operating System :: OS Independent`, and no other classifier. -/
theorem c4_classifiers_exact :
    plySetupArgs.classifiers =
      [ "Programming Language :: Python :: 3"
      , "Operating System :: OS Independent" ] := by
  rfl

/-- Claim C5: the `setup` call passes no `entry_points` (hence no
`console_scripts` group), no `scripts`, no `package_data` and no
`data_files` argument, and evaluating the module under any environment
reads no environment variable and writes no file. -/
theorem c5_no_interfaces_no_persistence :
    plySetupArgs.entry_points = none
      ∧ plySetupArgs.scripts = none
      ∧ plySetupArgs.package_data = none
      ∧ plySetupArgs.data_files = none
      ∧ ∀ env : Env, ∀ e ∈ evalModule env,
          e.isReadEnvVar = false ∧ e.isWriteFile = false := by
  refine ⟨rfl, rfl, rfl, rfl, ?_⟩
  intro env e he
  have : evalModule env = [.callSetup plySetupArgs] := rfl
  rw [this] at he
  simp only [List.mem_singleton] at he
  subst he
  exact ⟨rfl, rfl⟩

/-- Witness for claim C5 at the empty environment and the one effect of
the trace. -/
theorem c5_no_interfaces_no_persistence_witness :
    Effect.isReadEnvVar (Effect.callSetup plySetupArgs) = false
      ∧ Effect.isWriteFile (Effect.callSetup plySetupArgs) = false :=
  c5_no_interfaces_no_persistence.2.2.2.2 (fun _ => none)
    (Effect.callSetup plySetupArgs) (by decide)

/-- Claim C6: the repository's source is solely the manifest `setup.py`,
whose body is one import and one `setup` call with literal arguments: no
statement is a function or class definition or a control-flow statement. -/
theorem c6_only_manifest_no_logic :
    repoFiles = [setupPyFile]
      ∧ setupPyFile.body =
          [ .importFrom "setuptools" ["setup", "find_packages"]
          , .setupCall plySetupArgs ]
      ∧ ∀ s ∈ setupPyFile.body, s.isAlgorithmic = false := by
  refine ⟨rfl, rfl, ?_⟩
  intro s hs
  simp only [setupPyFile, setupPyBody, List.mem_cons, List.mem_singleton,
    List.not_mem_nil, or_false] at hs
  rcases hs with h | h <;> subst h <;> rfl

/-- Witness for claim C6 at the `setup` call statement of the body. -/
theorem c6_only_manifest_no_logic_witness :
    Stmt.isAlgorithmic (Stmt.setupCall plySetupArgs) = false :=
  c6_only_manifest_no_logic.2.2 (Stmt.setupCall plySetupArgs) (by decide)

/-- Claim C7: the `packages` argument is the result of calling
`find_packages()` with no arguments.  Since `findPackagesCall` and
`literalList` are distinct constructors of `PackagesArg`, this equality
also shows the argument is not a hard-coded list of package names. -/
theorem c7_automatic_package_discovery :
    plySetupArgs.packages = PackagesArg.findPackagesCall [] := by
  rfl

/-- Claim C8: evaluating the module is deterministic and calls `setup`
exactly once: under every environment the effect trace is exactly one
`setup` call with the manifest's arguments, so any two evaluations produce
identical argument values. -/
theorem c8_single_deterministic_setup_call :
    (∀ env : Env, evalModule env = [Effect.callSetup plySetupArgs])
      ∧ ∀ env₁ env₂ : Env, evalModule env₁ = evalModule env₂ := by
  constructor
  · intro env; rfl
  · intro env₁ env₂; rfl

/-- Witness for claim C8 at the empty environment. -/
theorem c8_single_deterministic_setup_call_witness :
    evalModule (fun _ => none) = [Effect.callSetup plySetupArgs] :=
  c8_single_deterministic_setup_call.1 (fun _ => none)

/-- Claim C9: the manifest's description string is exactly
`A module for processing point clouds with plane fitting and bounding
boxes`. -/
theorem c9_description_exact :
    plySetupArgs.description =
      "A module for processing point clouds with plane fitting and bounding boxes" := by
  rfl

/-- Claim C10: every entry of `install_requires` is an exact-equality pin
(`==` occurs exactly once and no range operator occurs), and the package
names of the four entries are pairwise distinct. -/
theorem c10_pins_exact_and_names_distinct :
    (∀ r ∈ plySetupArgs.install_requires, isExactPin r = true)
      ∧ (plySetupArgs.install_requires.map requirementName).Nodup := by
  constructor
  · intro r hr
    fin_cases hr <;> decide
  · decide

/-- Witness for claim C10 at the first requirement entry. -/
theorem c10_pins_exact_and_names_distinct_witness :
    isExactPin "open3d==0.18.0" = true :=
  c10_pins_exact_and_names_distinct.1 "open3d==0.18.0" (by decide)
